import Mathlib

/-!
Verification development for the news-classifier serving stack
(`src/api/main.py`, `src/api/routes/batch_predict.py`,
`src/database/redis_client.py`, `src/database/postgres_client.py`,
`src/models/bert_model.py`).

The Python code is shallowly embedded: stateful objects become explicit
state records, network calls become explicit environment-outcome
parameters, floats become rationals, and fallible code returns
`Option`/`Except`.  The external classifier model is an opaque
deterministic scoring function, as the specification treats it.
-/

/-- Python-style dynamic value, used where the source builds ad hoc
dictionaries with data-dependent keys (the classifier's result dict, the
stats payload). -/
inductive PyVal where
  | str (s : String)
  | num (q : ℚ)
  | pybool (b : Bool)
  | dict (fields : List (String × PyVal))
  | pynone

/-- Python `d[k]`-style lookup on a dict modelled as an association list;
`none` models a `KeyError`. -/
def dictGet (d : List (String × PyVal)) (k : String) : Option PyVal :=
  (d.find? (fun p => p.1 == k)).map (fun p => p.2)

/-- The prediction value that flows between classifier, cache and
response assembly: the `{topic, confidence, probabilities}` triple
(`prediction_result` in `main.py`, the value cached by `RedisCache.set`).
Floats are modelled as rationals. -/
structure PredictionValue where
  topic : String
  confidence : ℚ
  probabilities : List (String × ℚ)
deriving DecidableEq

/-- Models the byte string stored in Redis together with the external
`json.dumps`/`json.loads` codec: `jsonOf v` is valid JSON holding a
well-shaped prediction dict and round-trips to `v`; `corrupt raw` is data
on which `json.loads` raises `JSONDecodeError`.  (Well-formed JSON of a
different shape is not modelled; no claim touches that case.) -/
inductive SerializedData where
  | jsonOf (v : PredictionValue)
  | corrupt (raw : String)
deriving DecidableEq

/-- Models `json.dumps` on a prediction dict (always succeeds and
round-trips). -/
def serializeJson (v : PredictionValue) : SerializedData := .jsonOf v

/-- Models `json.loads`: succeeds exactly on data written by
`serializeJson`; `none` models `JSONDecodeError`. -/
def deserializeJson : SerializedData → Option PredictionValue
  | .jsonOf v => some v
  | .corrupt _ => none

/-- State of a `RedisCache` instance: the `_connected` flag (the
`client is None` check in the source always agrees with it, so the two
are folded together) and the Redis keyspace reachable through the
client. -/
structure CacheState where
  connected : Bool
  store : List (String × SerializedData)
deriving DecidableEq

/-- Environment outcome of one Redis network round trip inside
`asyncio.wait_for`: completes, times out, or raises some other
exception. -/
inductive RedisNet where
  | ok
  | timeout
  | error
deriving DecidableEq

/-- Environment outcome of the `try` block in `RedisCache.set`: the
`setex` round trip completes, times out, or some exception is raised —
by `json.dumps` (which raises `TypeError`/`ValueError`; the loads-only
`json.JSONDecodeError` cannot occur) or by the backend call.  A
completed `setex` necessarily reports success: redis-py's SETEX uses
the `bool_ok` response callback, which returns `True` on completion
and raises on any non-OK server reply.  Hence no realizable outcome
reaches the source's `except json.JSONDecodeError` handler or the
falsy-`success` arm of a completed `setex`. -/
inductive SetNet where
  | ok
  | timeout
  | error
deriving DecidableEq

/-- Environment outcome of a plain (not `wait_for`-wrapped) backend
call, as in `RedisCache.delete` and `RedisCache.flush_all`. -/
inductive AdminNet where
  | ok
  | error
deriving DecidableEq

/-- Which branch of `RedisCache.get` produced the result (direct
instrumentation of the source's control flow, used to express the
self-heal claim). -/
inductive GetPath where
  | notConnected
  | hit
  | miss
  | timeout
  | corrupted
  | backendError
deriving DecidableEq

namespace RedisCache

/-- Models the external `hashlib.sha256(text.encode()).hexdigest()`
digest as a deterministic stand-in function; the development relies only
on the digest being a pure function of the text. -/
def sha256hexDigest (text : String) : String :=
  let h := text.foldl (fun a c => (a * 131 + c.toNat) % (2 ^ 64)) 5381
  (Nat.toDigits 16 h).asString

/-- `RedisCache._generate_key`: `"pred:" + sha256(text).hexdigest()[:16]`. -/
def generateKey (text : String) : String :=
  "pred:" ++ (sha256hexDigest text).take 16

/-- Read a key from the modelled Redis keyspace. -/
def lookupStore (key : String) (store : List (String × SerializedData)) :
    Option SerializedData :=
  (store.find? (fun p => p.1 == key)).map (fun p => p.2)

/-- Remove a key from the modelled Redis keyspace (Redis `DELETE`). -/
def eraseStore (key : String) (store : List (String × SerializedData)) :
    List (String × SerializedData) :=
  store.filter (fun p => p.1 != key)

/-- Overwrite a key in the modelled Redis keyspace (Redis `SETEX`;
TTL bookkeeping is not modelled, no claim touches expiry). -/
def insertStore (key : String) (v : SerializedData)
    (store : List (String × SerializedData)) :
    List (String × SerializedData) :=
  (key, v) :: eraseStore key store

/-- Result of `RedisCache.get`: the returned value (`none` = Python
`None`), the cache state afterwards, and the branch taken. -/
structure GetResult where
  value : Option PredictionValue
  state : CacheState
  path : GetPath
deriving DecidableEq

/-- `RedisCache.get`, translated branch by branch from
`redis_client.py` lines 126-172.  `net` is the outcome of the
`wait_for(client.get(key))` round trip; `deleteOk` tells whether the
best-effort `client.delete(key)` inside the corruption handler (itself
wrapped in `try/except: pass`) succeeds.  Every branch returns a value
rather than raising, mirroring the function's catch-all handlers. -/
def get (st : CacheState) (net : RedisNet) (deleteOk : Bool)
    (text : String) : GetResult :=
  if !st.connected then ⟨none, st, .notConnected⟩
  else
    match net with
    | .timeout => ⟨none, st, .timeout⟩
    | .error => ⟨none, st, .backendError⟩
    | .ok =>
      let key := generateKey text
      match lookupStore key st.store with
      | none => ⟨none, st, .miss⟩
      | some s =>
        match deserializeJson s with
        | some v => ⟨some v, st, .hit⟩
        | none =>
          if deleteOk then
            ⟨none, { st with store := eraseStore key st.store }, .corrupted⟩
          else ⟨none, st, .corrupted⟩

/-- `RedisCache.set`, translated from `redis_client.py` lines 174-222
over the realizable environment outcomes: returns `True` when
disconnected, `True` with the value stored on a completed `setex` (the
`bool_ok` callback makes `success` true, so the source's
`else: return False` arm at line 210 is dead code), `True` on timeout,
and `True` on any raised exception (serialization failures raise
`TypeError`/`ValueError` and land in the catch-all at lines 220-222;
the `except json.JSONDecodeError: return False` handler at lines
216-218 is dead code, since `json.dumps` never raises that loads-only
exception). -/
def set (st : CacheState) (net : SetNet) (text : String)
    (prediction : PredictionValue) : Bool × CacheState :=
  if !st.connected then (true, st)
  else
    match net with
    | .timeout => (true, st)
    | .error => (true, st)
    | .ok =>
      let key := generateKey text
      (true, { st with store := insertStore key (serializeJson prediction) st.store })

/-- `RedisCache.delete`, translated from `redis_client.py` lines
224-237: returns `True` when disconnected, `True` on success and `True`
on a backend exception. -/
def delete (st : CacheState) (net : AdminNet) (text : String) :
    Bool × CacheState :=
  if !st.connected then (true, st)
  else
    match net with
    | .ok => (true, { st with store := eraseStore (generateKey text) st.store })
    | .error => (true, st)

/-- `RedisCache.flush_all`, translated from `redis_client.py` lines
239-251: `False` when disconnected, `True` on a successful `flushdb`,
`False` on a backend exception. -/
def flush_all (st : CacheState) (net : AdminNet) : Bool × CacheState :=
  if !st.connected then (false, st)
  else
    match net with
    | .ok => (true, { st with store := [] })
    | .error => (false, st)

/-- `RedisCache._max_retry_attempts`. -/
def maxRetryAttempts : Nat := 3

/-- Recursive core of `RedisCache.connect` (`redis_client.py` lines
62-113).  `outcome i` is whether the `(i+1)`-th connection attempt's
ping succeeds; `attempts` is the `_connection_attempts` counter.  The
result is `(returned boolean, final attempt counter, backoff waits in
seconds)`.  The fuel argument only bounds the recursion; with fuel
`maxRetryAttempts - attempts` it is never exhausted because the counter
check stops the recursion first. -/
def connectAux (outcome : Nat → Bool) : Nat → Nat → Bool × Nat × List Nat
  | 0, attempts => (false, attempts, [])
  | fuel + 1, attempts =>
    if outcome attempts then (true, 0, [])
    else
      let attempts' := attempts + 1
      if attempts' < maxRetryAttempts then
        let rest := connectAux outcome fuel attempts'
        (rest.1, rest.2.1, (2 ^ attempts') :: rest.2.2)
      else (false, attempts', [])

end RedisCache

/-- State of a `PostgresLogger` instance: its `_connected` flag (the
`pool is None` check in the source always agrees with it, so the two are
folded together). -/
structure PgState where
  connected : Bool
deriving DecidableEq

/-- One row of the `get_stats` aggregate query over the `predictions`
table (`postgres_client.py` lines 311-324).  SQL aggregates may be
NULL, hence the `Option`s. -/
structure StatRow where
  predicted_topic : String
  count : Nat
  avg_confidence : Option ℚ
  avg_latency : Option ℚ
  min_confidence : Option ℚ
  max_confidence : Option ℚ
  p95_latency : Option ℚ

namespace PostgresLogger

/-- `PostgresLogger._max_retry_attempts`. -/
def maxRetryAttempts : Nat := 3

/-- Recursive core of `PostgresLogger.connect` (`postgres_client.py`
lines 75-127); same shape as `RedisCache.connectAux`. -/
def connectAux (outcome : Nat → Bool) : Nat → Nat → Bool × Nat × List Nat
  | 0, attempts => (false, attempts, [])
  | fuel + 1, attempts =>
    if outcome attempts then (true, 0, [])
    else
      let attempts' := attempts + 1
      if attempts' < maxRetryAttempts then
        let rest := connectAux outcome fuel attempts'
        (rest.1, rest.2.1, (2 ^ attempts') :: rest.2.2)
      else (false, attempts', [])

/-- Python `float(v) if v else 0` on a nullable SQL aggregate; `0` is
falsy in Python, so both `NULL` and `0` map to `0`, which collapses to
this function on rationals. -/
def statVal : Option ℚ → ℚ
  | some v => v
  | none => 0

/-- The per-topic entry `stats[topic]` built in `get_stats`
(`postgres_client.py` lines 335-342). -/
def topicEntry (row : StatRow) : PyVal :=
  .dict [("count", .num row.count),
         ("avg_confidence", .num (statVal row.avg_confidence)),
         ("avg_latency_ms", .num (statVal row.avg_latency)),
         ("min_confidence", .num (statVal row.min_confidence)),
         ("max_confidence", .num (statVal row.max_confidence)),
         ("p95_latency_ms", .num (statVal row.p95_latency))]

/-- Python-dict style upsert: replace the value under an existing key,
otherwise append at the end (insertion order preserved). -/
def upsert (l : List (String × PyVal)) (k : String) (v : PyVal) :
    List (String × PyVal) :=
  if l.any (fun p => p.1 == k) then
    l.map (fun p => if p.1 == k then (k, v) else p)
  else l ++ [(k, v)]

/-- `PostgresLogger.get_stats`, translated from `postgres_client.py`
lines 293-357.  `queryResult` is the outcome of the aggregate query
(`Except.error` models any exception inside the `try`); `now` stands for
`datetime.utcnow().isoformat()`.  Note the source computes
`num_topics` as `len(stats) - 1` before `_summary` is inserted, so it
undercounts the topics by one (faithfully reproduced). -/
def get_stats (st : PgState) (queryResult : Except Unit (List StatRow))
    (hours : Nat) (now : String) : List (String × PyVal) :=
  if !st.connected then []
  else
    match queryResult with
    | .error _ => []
    | .ok rows =>
      let step := fun (acc : List (String × PyVal) × Nat) (row : StatRow) =>
        (upsert acc.1 row.predicted_topic (topicEntry row), acc.2 + row.count)
      let built := rows.foldl step ([], 0)
      built.1 ++ [("_summary", .dict
        [("total_predictions", .num built.2),
         ("num_topics", .num ((built.1.length : ℚ) - 1)),
         ("window_hours", .num hours),
         ("timestamp", .str now)])]

end PostgresLogger

namespace ApiMain

/-- The attribute names a `PostgresLogger` instance ever defines
(`postgres_client.py` lines 31-73, `__init__`); there is no attribute
named `connection`. -/
def postgresLoggerAttrs : List String :=
  ["config", "pool", "min_size", "max_size",
   "_connected", "_connection_attempts", "_max_retry_attempts"]

/-- Python `hasattr(obj, name)` over the modelled attribute set. -/
def pyHasattr (attrs : List String) (name : String) : Bool :=
  attrs.contains name

/-- The JSON body returned by `GET /readiness` (`main.py` lines
274-279). -/
structure ReadinessResponse where
  ready : Bool
  model_loaded : Bool
  redis_connected : Bool
  postgres_connected : Bool
deriving DecidableEq

/-- The `readiness` endpoint (`main.py` lines 243-283).  `Except.error`
models the HTTP 503 raised when no model is loaded.  The postgres check
is `hasattr(postgres_logger, 'connection') and postgres_logger.connection
is not None`; since `PostgresLogger` never defines `connection`, the
`and` short-circuits and the second conjunct is unreachable, so the
actual `PgState` is never consulted. -/
def readiness (modelLoaded : Bool) (redisCache : Option CacheState)
    (pgLogger : Option PgState) : Except Unit ReadinessResponse :=
  if !modelLoaded then .error ()
  else
    let redisStatus :=
      match redisCache with
      | some st => st.connected
      | none => false
    let postgresStatus :=
      match pgLogger with
      | some _ => pyHasattr postgresLoggerAttrs "connection"
      | none => false
    .ok ⟨redisStatus && postgresStatus, modelLoaded, redisStatus, postgresStatus⟩

/-- The `prediction_result` dict built in `predict` (`main.py` lines
408-412) from the classifier's result. -/
def predictionResultOf (result : PredictionValue) : PredictionValue :=
  { topic := result.topic
    confidence := result.confidence
    probabilities := result.probabilities }

/-- The response of `POST /predict` without its timing field
(`latency_ms` is wall-clock and outside the embedding). -/
structure PredictResponseCore where
  title : String
  topic : String
  confidence : ℚ
  probabilities : List (String × ℚ)
  cached : Bool
deriving DecidableEq

/-- The `predict` endpoint's response assembly (`main.py` lines
356-461).  `classify` is the opaque deterministic model
(`model.predict`); `redisCache` is the global cache handle (set to
`None` when startup degraded it); `net`/`deleteOk` are the cache-read
environment outcomes.  The fire-and-forget cache write and analytics
log are dispatched after the response fields are fixed and cannot
change them; they are modelled separately by `RedisCache.set` and the
logger.  A cache read error falls through to the model path (the inner
`try/except` around the cache lookup). -/
def predict (classify : String → PredictionValue)
    (redisCache : Option CacheState) (net : RedisNet) (deleteOk : Bool)
    (use_cache : Bool) (title : String) : PredictResponseCore :=
  let cacheHit : Option PredictionValue :=
    match redisCache with
    | some st =>
      if use_cache && st.connected then (RedisCache.get st net deleteOk title).value
      else none
    | none => none
  match cacheHit with
  | some v => ⟨title, v.topic, v.confidence, v.probabilities, true⟩
  | none =>
    let result := classify title
    ⟨title, result.topic, result.confidence, result.probabilities, false⟩

/-- The `stats` endpoint (`main.py` lines 512-524): with no logger
handle it returns `{"error": "PostgreSQL not available"}`; otherwise it
returns `get_stats`'s result (which never raises). -/
def stats (pgLogger : Option PgState) (queryResult : Except Unit (List StatRow))
    (hours : Nat) (now : String) : List (String × PyVal) :=
  match pgLogger with
  | none => [("error", PyVal.str "PostgreSQL not available")]
  | some st => PostgresLogger.get_stats st queryResult hours now

end ApiMain

/-- The dict returned by `BERTNewsClassifier.predict` (`bert_model.py`
lines 244-251) given the opaque model computation's outcome: its keys
are exactly `topic`, `confidence` and `probabilities`. -/
def bertPredictDict (r : PredictionValue) : List (String × PyVal) :=
  [("topic", .str r.topic),
   ("confidence", .num r.confidence),
   ("probabilities", .dict (r.probabilities.map (fun p => (p.1, PyVal.num p.2))))]

namespace BatchPredict

/-- `BatchItem` from `batch_predict.py` (request item: optional id,
title, optional ground truth). -/
structure BatchItem where
  id : Option String
  title : String
  ground_truth : Option String
deriving DecidableEq

/-- `PredictionResult` from `batch_predict.py` without its timing
field. -/
structure PredictionResult where
  id : String
  title : String
  prediction : String
  confidence : ℚ
  ground_truth : Option String
  is_correct : Option Bool
deriving DecidableEq

/-- Per-class block of `calculate_metrics` (`per_class[cls]`).  The
Lean field name `recallVal` stands for the dict key `recall` (which is
a reserved word in this Lean environment). -/
structure ClassMetrics where
  precision : ℚ
  recallVal : ℚ
  f1 : ℚ
  support : Nat
deriving DecidableEq

/-- The `overall` block of `calculate_metrics`.  The Lean field names
`precisionMacro`/`recallMacro`/`f1Macro` stand for the dict keys
`precision_macro`/`recall_macro`/`f1_macro`. -/
structure OverallMetrics where
  accuracy : ℚ
  precisionMacro : ℚ
  recallMacro : ℚ
  f1Macro : ℚ
  total_samples : Nat
  correct_predictions : Nat
deriving DecidableEq

/-- The full dict returned by `calculate_metrics` on the success
path. -/
structure MetricsResult where
  overall : OverallMetrics
  per_class : List (String × ClassMetrics)
  confusion_labels : List String
  confusion_matrix : List (List Nat)
deriving DecidableEq

/-- The binary indicator list `[1 if x == cls else 0 for x in ys]`. -/
def indicator (ys : List String) (cls : String) : List Nat :=
  ys.map (fun x => if x == cls then 1 else 0)

/-- True positives of a binary indicator pair. -/
def binTP (t p : List Nat) : Nat :=
  ((t.zip p).filter (fun q => q.1 == 1 && q.2 == 1)).length

/-- False positives of a binary indicator pair. -/
def binFP (t p : List Nat) : Nat :=
  ((t.zip p).filter (fun q => q.1 == 0 && q.2 == 1)).length

/-- False negatives of a binary indicator pair. -/
def binFN (t p : List Nat) : Nat :=
  ((t.zip p).filter (fun q => q.1 == 1 && q.2 == 0)).length

/-- Models `sklearn.metrics.precision_score(t, p, zero_division=0)` on
binary indicator lists: `TP/(TP+FP)`, and `0` on a zero denominator. -/
def precision_score (t p : List Nat) : ℚ :=
  if binTP t p + binFP t p = 0 then 0
  else (binTP t p : ℚ) / ((binTP t p : ℚ) + (binFP t p : ℚ))

/-- Models `sklearn.metrics.recall_score(t, p, zero_division=0)` on
binary indicator lists: `TP/(TP+FN)`, and `0` on a zero denominator. -/
def recall_score (t p : List Nat) : ℚ :=
  if binTP t p + binFN t p = 0 then 0
  else (binTP t p : ℚ) / ((binTP t p : ℚ) + (binFN t p : ℚ))

/-- Models `sklearn.metrics.f1_score(t, p, zero_division=0)` on binary
indicator lists: `2TP/(2TP+FP+FN)`, and `0` on a zero denominator. -/
def f1_score (t p : List Nat) : ℚ :=
  if 2 * binTP t p + binFP t p + binFN t p = 0 then 0
  else (2 * binTP t p : ℚ) / ((2 * binTP t p : ℚ) + (binFP t p : ℚ) + (binFN t p : ℚ))

/-- Models `sklearn.metrics.accuracy_score`: fraction of positions
where the labels agree (`calculate_metrics` only calls it on nonempty
lists of equal length). -/
def accuracy_score (yt yp : List String) : ℚ :=
  if yt.length = 0 then 0
  else (((yt.zip yp).filter (fun q => q.1 == q.2)).length : ℚ) / (yt.length : ℚ)

/-- Insertion into a lexicographically sorted list of strings. -/
def insertSorted (s : String) : List String → List String
  | [] => [s]
  | x :: xs =>
    match compare s x with
    | .gt => x :: insertSorted s xs
    | _ => s :: x :: xs

/-- `sorted(set(y_true + y_pred))`: the sorted deduplicated union of
observed labels. -/
def sortedClasses (yt yp : List String) : List String :=
  ((yt ++ yp).eraseDups).foldr insertSorted []

/-- Models `sklearn.metrics.precision_score(yt, yp, average='macro',
zero_division=0)`: the mean over the sorted observed labels of the
one-vs-rest precision. -/
def precisionMacroScore (yt yp : List String) : ℚ :=
  let cs := sortedClasses yt yp
  if cs.length = 0 then 0
  else (cs.map (fun c => precision_score (indicator yt c) (indicator yp c))).sum / (cs.length : ℚ)

/-- Models `sklearn.metrics.recall_score(yt, yp, average='macro',
zero_division=0)`. -/
def recallMacroScore (yt yp : List String) : ℚ :=
  let cs := sortedClasses yt yp
  if cs.length = 0 then 0
  else (cs.map (fun c => recall_score (indicator yt c) (indicator yp c))).sum / (cs.length : ℚ)

/-- Models `sklearn.metrics.f1_score(yt, yp, average='macro',
zero_division=0)`. -/
def f1MacroScore (yt yp : List String) : ℚ :=
  let cs := sortedClasses yt yp
  if cs.length = 0 then 0
  else (cs.map (fun c => f1_score (indicator yt c) (indicator yp c))).sum / (cs.length : ℚ)

/-- `calculate_metrics` from `batch_predict.py` lines 75-119.
`Except.error` models the `{"error": ...}` dict returned on invalid
lengths.  (The catch-all handler at lines 117-119 is unreachable in the
embedding because every metric function is total.) -/
def calculate_metrics (y_true y_pred : List String) :
    Except String MetricsResult :=
  if y_true.isEmpty || y_pred.isEmpty || y_true.length != y_pred.length then
    .error "Invalid label lengths"
  else
    let classes := sortedClasses y_true y_pred
    let per_class := classes.map (fun cls =>
      let ct := indicator y_true cls
      let cp := indicator y_pred cls
      (cls, ClassMetrics.mk (precision_score ct cp) (recall_score ct cp)
        (f1_score ct cp) ct.sum))
    let cm := classes.map (fun ci => classes.map (fun cj =>
      ((y_true.zip y_pred).filter (fun q => q.1 == ci && q.2 == cj)).length))
    .ok
      { overall :=
          { accuracy := accuracy_score y_true y_pred
            precisionMacro := precisionMacroScore y_true y_pred
            recallMacro := recallMacroScore y_true y_pred
            f1Macro := f1MacroScore y_true y_pred
            total_samples := y_true.length
            correct_predictions :=
              ((y_true.zip y_pred).filter (fun q => q.1 == q.2)).length }
        per_class := per_class
        confusion_labels := classes
        confusion_matrix := cm }

/-- Outcome of one iteration of the per-item loop in `batch_predict`
(`batch_predict.py` lines 153-184): the `PredictionResult` appended to
`predictions_list` (or `none` when the iteration's `try` block raised),
and the `(ground_truth, prediction)` pair appended to the metric lists,
when the iteration got that far. -/
structure ItemStep where
  result : Option PredictionResult
  metricPair : Option (String × String)
deriving DecidableEq

/-- One iteration of the per-item loop.  `classify` models
`model.predict` returning its result dict, or `none` when it raises.
The iteration accesses `result['prediction']`, which is a `KeyError`
when absent; in the ground-truth branch this happens at the
`is_correct` line, before the metric lists are appended to, while
`result['confidence']` is only read during `PredictionResult`
construction, after the appends. -/
def processItem (classify : String → Option (List (String × PyVal)))
    (idx : Nat) (item : BatchItem) : ItemStep :=
  match classify item.title with
  | none => ⟨none, none⟩
  | some result =>
    match item.ground_truth with
    | some gt =>
      match dictGet result "prediction" with
      | some (.str pred) =>
        match dictGet result "confidence" with
        | some (.num c) =>
          ⟨some ⟨item.id.getD (toString idx), item.title, pred, c,
              some gt, some (pred == gt)⟩, some (gt, pred)⟩
        | _ => ⟨none, some (gt, pred)⟩
      | _ => ⟨none, none⟩
    | none =>
      match dictGet result "prediction", dictGet result "confidence" with
      | some (.str pred), some (.num c) =>
        ⟨some ⟨item.id.getD (toString idx), item.title, pred, c,
            none, none⟩, none⟩
      | _, _ => ⟨none, none⟩

/-- The `BatchResponse` of the extended batch endpoint without its
timing fields. -/
structure BatchResponse where
  total_items : Nat
  successful : Nat
  failed : Nat
  predictions : List PredictionResult
  metrics : Option (Except String MetricsResult)

/-- Accumulator step of the per-item loop: extends `predictions_list`,
`ground_truths` and `predictions`. -/
def loopStep (classify : String → Option (List (String × PyVal)))
    (acc : List PredictionResult × List String × List String)
    (ip : Nat × BatchItem) :
    List PredictionResult × List String × List String :=
  let s := processItem classify ip.1 ip.2
  (acc.1 ++ s.result.toList,
   acc.2.1 ++ (s.metricPair.map (fun q => q.1)).toList,
   acc.2.2 ++ (s.metricPair.map (fun q => q.2)).toList)

/-- The `batch_predict` endpoint (`batch_predict.py` lines 125-201),
assuming a loaded model: runs the per-item loop, then computes metrics
when requested and both metric lists are nonempty. -/
def batch_predict (classify : String → Option (List (String × PyVal)))
    (include_metrics : Bool) (items : List BatchItem) : BatchResponse :=
  let r := items.enum.foldl (loopStep classify) ([], [], [])
  let metrics :=
    if include_metrics && !r.2.1.isEmpty && !r.2.2.isEmpty then
      some (calculate_metrics r.2.1 r.2.2)
    else none
  { total_items := items.length
    successful := r.1.length
    failed := items.length - r.1.length
    predictions := r.1
    metrics := metrics }

end BatchPredict

/-- The three response fields the cache-transparency property compares
(`cached` and the timing field are allowed to differ). -/
def predictSameFields (a b : ApiMain.PredictResponseCore) : Prop :=
  a.topic = b.topic ∧ a.confidence = b.confidence ∧
    a.probabilities = b.probabilities

/-- A key just deleted from the keyspace is no longer found. -/
theorem lookupStore_eraseStore (key : String)
    (store : List (String × SerializedData)) :
    RedisCache.lookupStore key (RedisCache.eraseStore key store) = none := by
  simp only [RedisCache.lookupStore, RedisCache.eraseStore, Option.map_eq_none']
  rw [List.find?_eq_none]
  intro x hx
  rw [List.mem_filter] at hx
  simpa using hx.2

/-- A key just written to the keyspace is found with the written
value. -/
theorem lookupStore_insertStore_self (key : String) (v : SerializedData)
    (store : List (String × SerializedData)) :
    RedisCache.lookupStore key (RedisCache.insertStore key v store) = some v := by
  simp [RedisCache.lookupStore, RedisCache.insertStore, List.find?]

/-- C2: `RedisCache.set` returns `true` in every state and under every
realizable environment outcome — disconnected (Degraded) layer,
completed write, backend timeout, and any raised exception — i.e. it
never returns `false` and, being total, never raises past its
boundary. -/
theorem C2_set_best_effort (st : CacheState) (net : SetNet) (text : String)
    (v : PredictionValue) :
    (RedisCache.set st net text v).1 = true := by
  rcases st with ⟨c, s⟩
  cases c <;> cases net <;> simp [RedisCache.set]

/-- C8 counterexample: `RedisCache.delete` on a disconnected layer
returns `True`, not the real failure boolean the claim asserts. -/
theorem C8_delete_counterexample :
    (RedisCache.delete ⟨false, []⟩ AdminNet.ok "some title").1 = true ∧
      ¬ (RedisCache.delete ⟨false, []⟩ AdminNet.ok "some title").1 = false := by
  exact ⟨rfl, by simp [RedisCache.delete]⟩

/-- C8 (amended): `RedisCache.flush_all` returns a real success/failure
boolean (`false` when disconnected or on a backend error, `true` only
on success), but `RedisCache.delete` returns `true` in every case —
disconnected, success or backend error — mirroring `set`. -/
theorem C8_admin_return_values (st : CacheState) (net : AdminNet)
    (text : String) :
    (RedisCache.delete st net text).1 = true ∧
      ((RedisCache.flush_all st net).1 = true ↔
        st.connected = true ∧ net = AdminNet.ok) := by
  rcases st with ⟨c, s⟩
  cases c <;> cases net <;> simp [RedisCache.delete, RedisCache.flush_all]

/-- C10: whenever the model is loaded, the readiness endpoint reports
`postgres_connected = false` and hence `ready = false`, for every cache
handle and logger handle, because `hasattr(postgres_logger,
'connection')` is always false for a `PostgresLogger`. -/
theorem C10_readiness_postgres_always_false (redisCache : Option CacheState)
    (pgLogger : Option PgState) :
    ∃ r, ApiMain.readiness true redisCache pgLogger = Except.ok r ∧
      r.postgres_connected = false ∧ r.ready = false := by
  have hattr : ApiMain.pyHasattr ApiMain.postgresLoggerAttrs "connection" = false := by
    decide
  cases pgLogger <;>
    exact ⟨_, rfl, by simp [ApiMain.readiness, hattr],
      by simp [ApiMain.readiness, hattr]⟩

/-- C6 counterexample: when the logger handle is absent, the `stats`
endpoint returns `{"error": "PostgreSQL not available"}`, which is not
the empty object the claim states. -/
theorem C6_stats_counterexample :
    ApiMain.stats none (Except.ok []) 24 "2026-10-12T00:00:00" =
      [("error", PyVal.str "PostgreSQL not available")] ∧
      [("error", PyVal.str "PostgreSQL not available")] ≠
        ([] : List (String × PyVal)) :=
  ⟨rfl, by simp⟩

/-- C6 (amended): `get_stats` returns an empty result set (not an
error) whenever the logger is disconnected, and the `stats` endpoint
forwards that empty object when the logger handle is present but
disconnected; when the logger handle is absent, however, the endpoint
returns `{"error": "PostgreSQL not available"}` rather than an empty
object. -/
theorem C6_stats_empty_when_disconnected (st : PgState)
    (q : Except Unit (List StatRow)) (hours : Nat) (now : String)
    (h : st.connected = false) :
    PostgresLogger.get_stats st q hours now = [] ∧
      ApiMain.stats (some st) q hours now = [] := by
  constructor <;> simp [PostgresLogger.get_stats, ApiMain.stats, h]

/-- C6 witness: the amended behavior at a concrete disconnected
state. -/
theorem C6_stats_empty_when_disconnected_witness :
    PostgresLogger.get_stats ⟨false⟩ (Except.ok []) 24 "2026-10-12T00:00:00" = [] ∧
      ApiMain.stats (some ⟨false⟩) (Except.ok []) 24 "2026-10-12T00:00:00" = [] :=
  C6_stats_empty_when_disconnected ⟨false⟩ (Except.ok []) 24 "2026-10-12T00:00:00" rfl

/-- C5 counterexample: on the claimed scenario the code assigns class
`TECH` a precision of `1` (2 correct out of 2 predicted `TECH`), not
the `2/3` the claim states — the claim swaps precision and recall. -/
theorem C5_metrics_counterexample :
    ((BatchPredict.calculate_metrics ["TECH", "TECH", "TECH"]
        ["TECH", "BUSINESS", "TECH"]).toOption.bind
      (fun m => (m.per_class.find? (fun p => p.1 == "TECH")).map
        (fun p => p.2.precision))) = some 1 ∧
      some (1 : ℚ) ≠ some (2 / 3 : ℚ) := by
  have hclasses : BatchPredict.sortedClasses ["TECH", "TECH", "TECH"]
      ["TECH", "BUSINESS", "TECH"] = ["BUSINESS", "TECH"] := by decide
  constructor
  · simp [BatchPredict.calculate_metrics, hclasses, BatchPredict.precision_score,
      BatchPredict.binTP, BatchPredict.binFP, BatchPredict.indicator,
      List.find?, Except.toOption]
  · norm_num

/-- C5 (amended): on predictions `[TECH, BUSINESS, TECH]` against
ground truth `[TECH, TECH, TECH]` the metrics are: overall accuracy
`2/3`; class `TECH` precision `= 2/2 = 1`, recall `= 2/3`, f1 `= 4/5`,
support `3`; class `BUSINESS` precision `= 0/1 = 0`, recall `= 0/0`
reported as `0`, f1 `0`, support `0`.  In general a zero denominator in
any per-class precision/recall/f1 yields `0`, not an error. -/
theorem C5_metrics_scenario :
    (∃ m, BatchPredict.calculate_metrics ["TECH", "TECH", "TECH"]
        ["TECH", "BUSINESS", "TECH"] = .ok m ∧
      m.overall.accuracy = 2 / 3 ∧
      m.per_class.find? (fun p => p.1 == "TECH") =
        some ("TECH", ⟨1, 2 / 3, 4 / 5, 3⟩) ∧
      m.per_class.find? (fun p => p.1 == "BUSINESS") =
        some ("BUSINESS", ⟨0, 0, 0, 0⟩)) ∧
    (∀ t p : List Nat,
      (BatchPredict.binTP t p + BatchPredict.binFP t p = 0 →
        BatchPredict.precision_score t p = 0) ∧
      (BatchPredict.binTP t p + BatchPredict.binFN t p = 0 →
        BatchPredict.recall_score t p = 0) ∧
      (2 * BatchPredict.binTP t p + BatchPredict.binFP t p +
          BatchPredict.binFN t p = 0 →
        BatchPredict.f1_score t p = 0)) := by
  constructor
  · have hclasses : BatchPredict.sortedClasses ["TECH", "TECH", "TECH"]
        ["TECH", "BUSINESS", "TECH"] = ["BUSINESS", "TECH"] := by decide
    refine ⟨_, rfl, ?_, ?_, ?_⟩
    · simp [BatchPredict.accuracy_score]
    · simp [hclasses, BatchPredict.precision_score, BatchPredict.recall_score,
        BatchPredict.f1_score, BatchPredict.binTP, BatchPredict.binFP,
        BatchPredict.binFN, BatchPredict.indicator, List.find?]
      norm_num
    · simp [hclasses, BatchPredict.precision_score, BatchPredict.recall_score,
        BatchPredict.f1_score, BatchPredict.binTP, BatchPredict.binFP,
        BatchPredict.binFN, BatchPredict.indicator, List.find?]
  · intro t p
    refine ⟨?_, ?_, ?_⟩ <;> intro h <;>
      simp [BatchPredict.precision_score, BatchPredict.recall_score,
        BatchPredict.f1_score, h]

/-- C5 witness: the zero-denominator conjuncts at concrete indicator
lists with no positives. -/
theorem C5_metrics_scenario_witness :
    BatchPredict.precision_score [0] [0] = 0 ∧
      BatchPredict.recall_score [0] [0] = 0 ∧
      BatchPredict.f1_score [0] [0] = 0 :=
  ⟨(C5_metrics_scenario.2 [0] [0]).1 (by decide),
   (C5_metrics_scenario.2 [0] [0]).2.1 (by decide),
   (C5_metrics_scenario.2 [0] [0]).2.2 (by decide)⟩

/-- C4: if a connected `get` finds a stored value that fails
deserialization, it returns absent (it returns on every branch, never
raising), takes the corruption branch, and deletes the corrupted entry
(the best-effort delete inside the handler succeeding), so a subsequent
`get` for the same text finds no entry and returns absent through the
plain miss branch, not the corruption branch. -/
theorem C4_corruption_self_heal (st : CacheState) (text raw : String)
    (deleteOk2 : Bool) (hconn : st.connected = true)
    (hfind : RedisCache.lookupStore (RedisCache.generateKey text) st.store =
      some (SerializedData.corrupt raw)) :
    (RedisCache.get st RedisNet.ok true text).value = none ∧
      (RedisCache.get st RedisNet.ok true text).path = GetPath.corrupted ∧
      RedisCache.lookupStore (RedisCache.generateKey text)
        (RedisCache.get st RedisNet.ok true text).state.store = none ∧
      (RedisCache.get (RedisCache.get st RedisNet.ok true text).state
        RedisNet.ok deleteOk2 text).value = none ∧
      (RedisCache.get (RedisCache.get st RedisNet.ok true text).state
        RedisNet.ok deleteOk2 text).path = GetPath.miss := by
  simp [RedisCache.get, hconn, hfind, deserializeJson, lookupStore_eraseStore]

/-- C4 witness: the self-heal behavior on a concrete one-entry cache
holding non-deserializable data. -/
theorem C4_corruption_self_heal_witness :
    (RedisCache.get
      ⟨true, [(RedisCache.generateKey "hello world", SerializedData.corrupt "oops")]⟩
      RedisNet.ok true "hello world").value = none ∧
      (RedisCache.get
        ⟨true, [(RedisCache.generateKey "hello world", SerializedData.corrupt "oops")]⟩
        RedisNet.ok true "hello world").path = GetPath.corrupted ∧
      RedisCache.lookupStore (RedisCache.generateKey "hello world")
        (RedisCache.get
          ⟨true, [(RedisCache.generateKey "hello world", SerializedData.corrupt "oops")]⟩
          RedisNet.ok true "hello world").state.store = none ∧
      (RedisCache.get
        (RedisCache.get
          ⟨true, [(RedisCache.generateKey "hello world", SerializedData.corrupt "oops")]⟩
          RedisNet.ok true "hello world").state
        RedisNet.ok false "hello world").value = none ∧
      (RedisCache.get
        (RedisCache.get
          ⟨true, [(RedisCache.generateKey "hello world", SerializedData.corrupt "oops")]⟩
          RedisNet.ok true "hello world").state
        RedisNet.ok false "hello world").path = GetPath.miss :=
  C4_corruption_self_heal
    ⟨true, [(RedisCache.generateKey "hello world", SerializedData.corrupt "oops")]⟩
    "hello world" "oops" false rfl (by simp [RedisCache.lookupStore, List.find?])

/-- Core transparency argument: when every entry stored under the
text's cache key decodes to the model's own prediction value for that
text, the cache-enabled response carries the same fields as the
cache-disabled (direct model) response. -/
theorem predict_transparent_of_coherent (classify : String → PredictionValue)
    (st : CacheState) (net : RedisNet) (deleteOk : Bool) (text : String)
    (hcoh : ∀ s, RedisCache.lookupStore (RedisCache.generateKey text) st.store =
        some s →
      deserializeJson s = some (ApiMain.predictionResultOf (classify text))) :
    predictSameFields
      (ApiMain.predict classify (some st) net deleteOk true text)
      (ApiMain.predict classify (some st) net deleteOk false text) := by
  rcases st with ⟨c, store⟩
  cases c
  · simp [ApiMain.predict, predictSameFields]
  · cases net
    · cases hfind : RedisCache.lookupStore (RedisCache.generateKey text) store with
      | none =>
        simp [ApiMain.predict, RedisCache.get, hfind, predictSameFields]
      | some s =>
        have hd := hcoh s hfind
        simp [ApiMain.predict, RedisCache.get, hfind, hd, predictSameFields,
          ApiMain.predictionResultOf]
    · simp [ApiMain.predict, RedisCache.get, predictSameFields]
    · simp [ApiMain.predict, RedisCache.get, predictSameFields]

/-- C1: for every text, the prediction operation with caching enabled
and with caching disabled returns identical `topic`, `confidence` and
`probabilities` fields (only `cached` and the timing may differ),
whenever any entry stored under the text's key holds the value `set`
writes for that text — the model's own `prediction_result`; and,
explicitly, after a completed `set` of the model's result for the text,
the cache-enabled response still equals the direct model response. -/
theorem C1_cache_transparency (classify : String → PredictionValue)
    (st : CacheState) (net : RedisNet) (deleteOk : Bool) (text : String)
    (hcoh : ∀ s, RedisCache.lookupStore (RedisCache.generateKey text) st.store =
        some s →
      deserializeJson s = some (ApiMain.predictionResultOf (classify text))) :
    predictSameFields
      (ApiMain.predict classify (some st) net deleteOk true text)
      (ApiMain.predict classify (some st) net deleteOk false text) ∧
    ∀ (st₀ : CacheState) (net' : RedisNet) (deleteOk' : Bool),
      predictSameFields
        (ApiMain.predict classify
          (some (RedisCache.set st₀ SetNet.ok text
            (ApiMain.predictionResultOf (classify text))).2)
          net' deleteOk' true text)
        (ApiMain.predict classify (some st₀) net' deleteOk' false text) := by
  constructor
  · exact predict_transparent_of_coherent classify st net deleteOk text hcoh
  · intro st₀ net' deleteOk'
    rcases st₀ with ⟨c, store⟩
    cases c
    · simp [ApiMain.predict, RedisCache.set, predictSameFields]
    · have h2 := predict_transparent_of_coherent classify
        (RedisCache.set ⟨true, store⟩ SetNet.ok text
          (ApiMain.predictionResultOf (classify text))).2
        net' deleteOk' text ?_
      · exact h2
      · intro s hs
        simp [RedisCache.set, lookupStore_insertStore_self] at hs
        subst hs
        rfl

/-- Concrete classifier used by the C1 witness. -/
def c1Classify : String → PredictionValue :=
  fun _ => ⟨"TECH", 9 / 10, [("TECH", 9 / 10), ("WORLD", 1 / 10)]⟩

/-- C1 witness: the transparency property at a concrete classifier,
an empty connected cache and a concrete text, with the coherence
hypothesis discharged. -/
theorem C1_cache_transparency_witness :
    predictSameFields
      (ApiMain.predict c1Classify (some ⟨true, []⟩) RedisNet.ok true true "hello")
      (ApiMain.predict c1Classify (some ⟨true, []⟩) RedisNet.ok true false "hello") ∧
    ∀ (st₀ : CacheState) (net' : RedisNet) (deleteOk' : Bool),
      predictSameFields
        (ApiMain.predict c1Classify
          (some (RedisCache.set st₀ SetNet.ok "hello"
            (ApiMain.predictionResultOf (c1Classify "hello"))).2)
          net' deleteOk' true "hello")
        (ApiMain.predict c1Classify (some st₀) net' deleteOk' false "hello") :=
  C1_cache_transparency c1Classify ⟨true, []⟩ RedisNet.ok true "hello"
    (by intro s hs; simp [RedisCache.lookupStore] at hs)

/-- The classifier's result dict has no `prediction` key: its keys are
exactly `topic`, `confidence` and `probabilities`. -/
theorem dictGet_bertPredictDict_prediction (r : PredictionValue) :
    dictGet (bertPredictDict r) "prediction" = none := by
  simp [dictGet, bertPredictDict, List.find?]

/-- With the real classifier dict shape, every iteration of the batch
loop fails inside its `try` block (a `KeyError` on
`result['prediction']`, or the classifier raising), contributing
nothing to any of the three accumulated lists. -/
theorem processItem_bert (classifyOpt : String → Option PredictionValue)
    (idx : Nat) (item : BatchPredict.BatchItem) :
    BatchPredict.processItem (fun t => (classifyOpt t).map bertPredictDict)
      idx item = ⟨none, none⟩ := by
  unfold BatchPredict.processItem
  cases h : classifyOpt item.title with
  | none => simp [h]
  | some r =>
    cases hg : item.ground_truth with
    | none => simp [h, hg, dictGet_bertPredictDict_prediction]
    | some gt => simp [h, hg, dictGet_bertPredictDict_prediction]

/-- A batch loop whose every iteration contributes nothing leaves all
three accumulated lists empty. -/
theorem loopStep_fold_nil (classify : String → Option (List (String × PyVal)))
    (hstep : ∀ idx item, BatchPredict.processItem classify idx item =
      (⟨none, none⟩ : BatchPredict.ItemStep))
    (l : List (Nat × BatchPredict.BatchItem)) :
    l.foldl (BatchPredict.loopStep classify) ([], [], []) = ([], [], []) := by
  induction l with
  | nil => rfl
  | cons hd tl ih =>
    have hs : BatchPredict.loopStep classify ([], [], []) hd = ([], [], []) := by
      simp [BatchPredict.loopStep, hstep hd.1 hd.2]
    simpa [hs] using ih

/-- C9: for every batch request with at least one item, the extended
batch endpoint records every item as failed and returns no predictions
(`successful = 0`, `failed = total_items`, empty `predictions`, no
metrics), for any behavior of the underlying classifier, because the
per-item handler reads `result['prediction']` while the classifier's
dict only has the keys `topic`/`confidence`/`probabilities`. -/
theorem C9_batch_all_items_fail (classifyOpt : String → Option PredictionValue)
    (include_metrics : Bool) (items : List BatchPredict.BatchItem)
    (_hne : items ≠ []) :
    (BatchPredict.batch_predict (fun t => (classifyOpt t).map bertPredictDict)
        include_metrics items).successful = 0 ∧
      (BatchPredict.batch_predict (fun t => (classifyOpt t).map bertPredictDict)
        include_metrics items).failed = items.length ∧
      (BatchPredict.batch_predict (fun t => (classifyOpt t).map bertPredictDict)
        include_metrics items).predictions = [] ∧
      (BatchPredict.batch_predict (fun t => (classifyOpt t).map bertPredictDict)
        include_metrics items).metrics = none := by
  have hfold := loopStep_fold_nil _
    (fun idx item => processItem_bert classifyOpt idx item) items.enum
  simp [BatchPredict.batch_predict, hfold]

/-- Concrete classifier used by the C9 witness. -/
def c9Classify : String → Option PredictionValue :=
  fun _ => some ⟨"TECH", 1 / 2, [("TECH", 1 / 2)]⟩

/-- C9 witness: the all-items-fail behavior on a concrete one-item
batch with a concrete (succeeding) classifier. -/
theorem C9_batch_all_items_fail_witness :
    (BatchPredict.batch_predict (fun t => (c9Classify t).map bertPredictDict)
        true [⟨none, "a title", none⟩]).successful = 0 ∧
      (BatchPredict.batch_predict (fun t => (c9Classify t).map bertPredictDict)
        true [⟨none, "a title", none⟩]).failed =
          ([⟨none, "a title", none⟩] : List BatchPredict.BatchItem).length ∧
      (BatchPredict.batch_predict (fun t => (c9Classify t).map bertPredictDict)
        true [⟨none, "a title", none⟩]).predictions = [] ∧
      (BatchPredict.batch_predict (fun t => (c9Classify t).map bertPredictDict)
        true [⟨none, "a title", none⟩]).metrics = none :=
  C9_batch_all_items_fail c9Classify true [⟨none, "a title", none⟩] (by simp)

/-- The prediction value the C3 scenario's classifier computes on the
four items where inference succeeds. -/
def c3Value : PredictionValue :=
  ⟨"TECH", 9 / 10, [("TECH", 9 / 10), ("WORLD", 1 / 10)]⟩

/-- The C3 scenario's classifier: raises an inference error on the
third item's title only, and succeeds (returning the real
`topic`/`confidence`/`probabilities` dict) on the other four. -/
def c3Classify : String → Option (List (String × PyVal)) :=
  fun t => if t == "title 3" then none else some (bertPredictDict c3Value)

/-- The C3 scenario's batch of 5 items. -/
def c3Items : List BatchPredict.BatchItem :=
  [⟨some "1", "title 1", none⟩, ⟨some "2", "title 2", none⟩,
   ⟨some "3", "title 3", none⟩, ⟨some "4", "title 4", none⟩,
   ⟨some "5", "title 5", none⟩]

/-- C3 (code evaluated at the failing input): on a 5-item batch where
the classifier raises on item 3 only and succeeds on the other 4, the
code returns `successful = 0` and `failed = 5` with no predictions —
not the claimed `successful = 4, failed = 1` with the 4 good results —
because every successful inference still dies on the
`result['prediction']` `KeyError`. -/
theorem C3_batch_partial_failure_code_bug :
    (BatchPredict.batch_predict c3Classify true c3Items).total_items = 5 ∧
      (BatchPredict.batch_predict c3Classify true c3Items).successful = 0 ∧
      (BatchPredict.batch_predict c3Classify true c3Items).failed = 5 ∧
      (BatchPredict.batch_predict c3Classify true c3Items).predictions = [] :=
  ⟨rfl, rfl, rfl, rfl⟩
